import Mathlib

/-!
Verification development for the PaddleClas GoogLeNet backbone
(`ppcls/arch/backbone/model_zoo/googlenet.py`) and its inference driver
(`tools/infer/py_infer.py`), shallowly embedded in Lean 4.

Scores and tensor entries are modelled over `ℚ`; `numpy.argsort` is modelled
as the deterministic stable sort, i.e. sorting indices by the
(value, index) lexicographic order.
-/

namespace PyInfer

/-- `prob[i]` for a flattened score vector, reading 0 out of range
(all uses stay in range). -/
def probGet (prob : List ℚ) (i : ℕ) : ℚ := prob.getD i 0

/-- The order in which `numpy.argsort` (stable model) lists indices:
strictly smaller value first, ties by lower original index first. -/
def idxLe (prob : List ℚ) (i j : ℕ) : Prop :=
  probGet prob i < probGet prob j ∨ (probGet prob i = probGet prob j ∧ i ≤ j)

instance (prob : List ℚ) : DecidableRel (idxLe prob) := fun i j =>
  inferInstanceAs (Decidable (probGet prob i < probGet prob j ∨
    (probGet prob i = probGet prob j ∧ i ≤ j)))

instance (prob : List ℚ) : IsTotal ℕ (idxLe prob) where
  total i j := by
    rcases lt_trichotomy (probGet prob i) (probGet prob j) with h | h | h
    · exact Or.inl (Or.inl h)
    · rcases Nat.le_total i j with hij | hij
      · exact Or.inl (Or.inr ⟨h, hij⟩)
      · exact Or.inr (Or.inr ⟨h.symm, hij⟩)
    · exact Or.inr (Or.inl h)

instance (prob : List ℚ) : IsTrans ℕ (idxLe prob) where
  trans i j k hij hjk := by
    rcases hij with h1 | ⟨e1, le1⟩
    · rcases hjk with h2 | ⟨e2, _⟩
      · exact Or.inl (h1.trans h2)
      · exact Or.inl (e2 ▸ h1)
    · rcases hjk with h2 | ⟨e2, le2⟩
      · exact Or.inl (e1 ▸ h2)
      · exact Or.inr ⟨e1.trans e2, le1.trans le2⟩

instance (prob : List ℚ) : IsAntisymm ℕ (idxLe prob) where
  antisymm i j hij hji := by
    rcases hij with h1 | ⟨e1, le1⟩
    · rcases hji with h2 | ⟨e2, _⟩
      · exact absurd h2 (lt_asymm h1)
      · exact absurd h1 (e2 ▸ lt_irrefl _)
    · rcases hji with h2 | ⟨_, le2⟩
      · exact absurd h2 (e1 ▸ lt_irrefl _)
      · exact Nat.le_antisymm le1 le2

/-- Model of `prob.argsort(axis=0)`: the indices `0..n-1` sorted ascending by
value, ties by index (numpy stable sort model). -/
def argsort (prob : List ℚ) : List ℕ :=
  List.insertionSort (idxLe prob) (List.range prob.length)

/-- Model of the Python slice `l[-k:]`: the last `k` elements, except that
`l[-0:]` is the whole list. -/
def tailSlice {α : Type} (l : List α) (k : ℕ) : List α :=
  if k = 0 then l else l.drop (l.length - k)

/-- `postprocess` of `tools/infer/py_infer.py` on the flattened score vector:
`index = prob.argsort(axis=0)[-topk:][::-1]`, returning `zip(index, prob[index])`. -/
def postprocess (prob : List ℚ) (topk : ℕ) : List (ℕ × ℚ) :=
  let index := (tailSlice (argsort prob) topk).reverse
  index.map (fun i => (i, probGet prob i))

instance {ε α : Type} [DecidableEq ε] [DecidableEq α] : DecidableEq (Except ε α) := fun a b =>
  match a, b with
  | Except.ok x, Except.ok y =>
      if h : x = y then isTrue (by rw [h]) else isFalse (by simp [h])
  | Except.error x, Except.error y =>
      if h : x = y then isTrue (by rw [h]) else isFalse (by simp [h])
  | Except.ok _, Except.error _ => isFalse (by simp)
  | Except.error _, Except.ok _ => isFalse (by simp)

/-- Abstract file-system view used by `get_image_list`: the four `os` queries
the function performs (`os.path.exists`, `os.path.isfile`, `os.path.isdir`,
`os.listdir`). -/
structure FS where
  pathExists : String → Bool
  isfile : String → Bool
  isdir : String → Bool
  listdir : String → List String

/-- The literal extension list `img_end` of `get_image_list`. -/
def img_end : List String := ["jpg", "png", "jpeg", "JPEG", "JPG", "bmp"]

/-- Python `s.split('.')[-1]`: the final dot-separated component — the
characters after the last dot, or the whole string when it contains no dot
(`split` then yields the singleton). -/
def fileExt (s : String) : String :=
  String.mk ((s.data.reverse.takeWhile (fun c => c ≠ '.')).reverse)

/-- Model of `os.path.join(d, f)` for a plain relative entry name. -/
def path_join (d f : String) : String := d ++ "/" ++ f

/-- Whether an entry name passes the extension filter of `get_image_list`. -/
def isImgName (s : String) : Bool := decide (fileExt s ∈ img_end)

/-- `get_image_list` of `tools/infer/py_infer.py`, with `raise Exception(...)`
modelled as `Except.error` carrying the formatted message (`format` renders
`None` as the string `"None"`). -/
def get_image_list (fs : FS) (img_file : Option String) : Except String (List String) :=
  match img_file with
  | none => Except.error "not found any img file in None"
  | some f =>
    if fs.pathExists f = false then
      Except.error ("not found any img file in " ++ f)
    else
      let imgs_lists : List String :=
        if fs.isfile f ∧ fileExt f ∈ img_end then [f]
        else if fs.isdir f then ((fs.listdir f).filter isImgName).map (path_join f)
        else []
      if imgs_lists = [] then Except.error ("not found any img file in " ++ f)
      else Except.ok imgs_lists

/-- A sample file system: a directory `imgs` holding one image and one
non-image entry. -/
def fsEx : FS :=
  ⟨fun p => p == "imgs" || p == "imgs/a.jpg" || p == "imgs/b.txt",
   fun p => p == "imgs/a.jpg" || p == "imgs/b.txt",
   fun p => p == "imgs",
   fun p => if p == "imgs" then ["a.jpg", "b.txt"] else []⟩

/-- A sample file system holding one existing regular file `photo.PNG`
whose extension is outside the enumerated list. -/
def fsBad : FS :=
  ⟨fun p => p == "photo.PNG", fun p => p == "photo.PNG", fun _ => false, fun _ => []⟩

end PyInfer

namespace GoogLeNetModel

/-- A 4-D tensor in `NCHW` layout (the `data_format="NCHW"` default of the
source): shape fields plus an entry function over `ℚ`. -/
structure Tensor where
  n : ℕ
  c : ℕ
  h : ℕ
  w : ℕ
  data : ℕ → ℕ → ℕ → ℕ → ℚ

/-- Read an entry at possibly out-of-range (padded) spatial coordinates:
zero outside the tensor. -/
def Tensor.read (t : Tensor) (b c : ℕ) (i j : ℤ) : ℚ :=
  if 0 ≤ i ∧ i < (t.h : ℤ) ∧ 0 ≤ j ∧ j < (t.w : ℤ) then t.data b c i.toNat j.toNat
  else 0

/-- `paddle.nn.Conv2D` with square kernel `k`, stride `s`, zero padding `p`,
no bias, groups = 1 (every call in the source uses the default group count).
`wt co ci ki kj` is the kernel weight. -/
def conv2d (inC outC k s p : ℕ) (wt : ℕ → ℕ → ℕ → ℕ → ℚ) (x : Tensor) : Tensor :=
  ⟨x.n, outC, (x.h + 2 * p - k) / s + 1, (x.w + 2 * p - k) / s + 1,
    fun b co i j =>
      ∑ ci ∈ Finset.range inC, ∑ ki ∈ Finset.range k, ∑ kj ∈ Finset.range k,
        wt co ci ki kj * x.read b ci ((i * s + ki : ℕ) - (p : ℤ)) ((j * s + kj : ℕ) - (p : ℤ))⟩

/-- `paddle.nn.MaxPool2D` with kernel `k`, stride `s`, zero-padding width `p`;
the maximum ranges over the in-bounds window positions only (padding does not
contribute to a max pool). -/
def maxpool2d (k s p : ℕ) (x : Tensor) : Tensor :=
  ⟨x.n, x.c, (x.h + 2 * p - k) / s + 1, (x.w + 2 * p - k) / s + 1,
    fun b c i j =>
      ((((List.range k).flatMap (fun ki => (List.range k).map (fun kj =>
            ((i * s + ki : ℕ) - (p : ℤ), (j * s + kj : ℕ) - (p : ℤ))))).filter
          (fun q => decide (0 ≤ q.1 ∧ q.1 < (x.h : ℤ) ∧ 0 ≤ q.2 ∧ q.2 < (x.w : ℤ)))).map
        (fun q => x.data b c q.1.toNat q.2.toNat)).maximum.unbot' 0⟩

/-- `paddle.nn.AvgPool2D` with kernel `k`, stride `s` and the default zero
padding, so every window lies fully inside the input. -/
def avgpool2d (k s : ℕ) (x : Tensor) : Tensor :=
  ⟨x.n, x.c, (x.h - k) / s + 1, (x.w - k) / s + 1,
    fun b c i j =>
      (∑ ki ∈ Finset.range k, ∑ kj ∈ Finset.range k,
        x.data b c (i * s + ki) (j * s + kj)) / ((k : ℚ) * k)⟩

/-- `paddle.nn.AdaptiveAvgPool2D(1)`: global average pooling to `1 × 1`. -/
def adaptive_avg_pool_1 (x : Tensor) : Tensor :=
  ⟨x.n, x.c, 1, 1,
    fun b c _ _ =>
      (∑ i ∈ Finset.range x.h, ∑ j ∈ Finset.range x.w, x.data b c i j) / ((x.h : ℚ) * x.w)⟩

/-- `paddle.nn.functional.relu`. -/
def relu (x : Tensor) : Tensor :=
  ⟨x.n, x.c, x.h, x.w, fun b c i j => max 0 (x.data b c i j)⟩

/-- `paddle.concat [a, b]` along the channel axis (`axis=1` in `NCHW`). -/
def concat2 (a b : Tensor) : Tensor :=
  ⟨a.n, a.c + b.c, a.h, a.w,
    fun bi c i j => if c < a.c then a.data bi c i j else b.data bi (c - a.c) i j⟩

/-- `paddle.concat [t1, t2, t3, t4]` along the channel axis. -/
def concat4 (t1 t2 t3 t4 : Tensor) : Tensor :=
  concat2 t1 (concat2 t2 (concat2 t3 t4))

/-- `paddle.nn.Flatten()` with the default start axis 1: `[N, C*H*W]`. -/
def flatten (x : Tensor) : Tensor :=
  ⟨x.n, x.c * x.h * x.w, 1, 1,
    fun b f _ _ => x.data b (f / (x.h * x.w)) (f % (x.h * x.w) / x.w) (f % x.w)⟩

/-- Inference-vs-training switch of the host framework. -/
inductive Mode
  | train
  | infer
deriving DecidableEq

/-- A dropout mask (which entries are kept during training). -/
def Mask : Type := ℕ → ℕ → ℕ → ℕ → Bool

/-- `paddle.nn.Dropout(p, mode="downscale_in_infer")`: at train time entries
are kept or zeroed by the mask with no rescaling; at inference time every
entry is scaled by `1 - p`. -/
def dropout (p : ℚ) (mode : Mode) (mask : Mask) (x : Tensor) : Tensor :=
  ⟨x.n, x.c, x.h, x.w,
    fun b c i j =>
      match mode with
      | Mode.train => if mask b c i j then x.data b c i j else 0
      | Mode.infer => (1 - p) * x.data b c i j⟩

/-- The initializer-determined parameter values supplied by the framework,
looked up by the `ParamAttr` names used in the source (conv kernels, linear
weight matrices, linear biases). -/
structure WeightBank where
  cw : String → ℕ → ℕ → ℕ → ℕ → ℚ
  lw : String → ℕ → ℕ → ℚ
  lb : String → ℕ → ℚ

/-- `ConvLayer` of the source: a bias-free `Conv2D` whose padding is
`(filter_size - 1) // 2`. -/
structure ConvLayer where
  num_channels : ℕ
  num_filters : ℕ
  filter_size : ℕ
  stride : ℕ
  wdata : ℕ → ℕ → ℕ → ℕ → ℚ

/-- `ConvLayer.forward`: the convolution itself (no activation inside). -/
def ConvLayer.forward (l : ConvLayer) (x : Tensor) : Tensor :=
  conv2d l.num_channels l.num_filters l.filter_size l.stride ((l.filter_size - 1) / 2) l.wdata x

/-- `ConvLayer.__init__`: weights named `name + "_weights"` in the bank. -/
def mkConvLayer (bank : WeightBank) (num_channels num_filters filter_size stride : ℕ)
    (name : String) : ConvLayer :=
  ⟨num_channels, num_filters, filter_size, stride, bank.cw (name ++ "_weights")⟩

/-- The `xavier` helper of the source produces a bounded-uniform initializer
`Uniform(-stdv, stdv)` with `stdv = (3.0 / (filter_size**2 * channels))**0.5`;
this record keeps the call-site arguments. -/
structure XavierAttr where
  channels : ℕ
  filter_size : ℕ
deriving DecidableEq

/-- The square `stdv^2` of the `xavier` bound (kept in `ℚ` to avoid the
square root): `3 / (filter_size^2 * channels)`. -/
def xavier_stdv_sq (channels filter_size : ℕ) : ℚ :=
  3 / ((filter_size : ℚ) ^ 2 * channels)

/-- `paddle.nn.Linear` with the `xavier` weight attribute of its call site. -/
structure Linear where
  in_features : ℕ
  out_features : ℕ
  weight : ℕ → ℕ → ℚ
  bias : ℕ → ℚ
  weight_attr : XavierAttr

/-- `Linear` applied to a flattened tensor (features on the channel axis):
`y = x W + b`. -/
def Linear.forward (l : Linear) (x : Tensor) : Tensor :=
  ⟨x.n, l.out_features, 1, 1,
    fun b o _ _ =>
      (∑ i ∈ Finset.range l.in_features, x.data b i 0 0 * l.weight i o) + l.bias o⟩

/-- A `Linear` built as in `GoogLeNetDY.__init__`: weights from
`xavier(channels, filter_size, name)` (named `name + "_weights"`), bias from
`ParamAttr(name=bias_name)`. -/
def mkLinear (bank : WeightBank) (in_f out_f channels filter_size : ℕ)
    (name bias_name : String) : Linear :=
  ⟨in_f, out_f, bank.lw (name ++ "_weights"), bank.lb bias_name, ⟨channels, filter_size⟩⟩

/-- `Inception` of the source: the six branch widths plus the kernel weights
of its six `ConvLayer`s. -/
structure Inception where
  input_channels : ℕ
  output_channels : ℕ
  filter1 : ℕ
  filter3R : ℕ
  filter3 : ℕ
  filter5R : ℕ
  filter5 : ℕ
  proj : ℕ
  w1 : ℕ → ℕ → ℕ → ℕ → ℚ
  w3r : ℕ → ℕ → ℕ → ℕ → ℚ
  w3 : ℕ → ℕ → ℕ → ℕ → ℚ
  w5r : ℕ → ℕ → ℕ → ℕ → ℚ
  w5 : ℕ → ℕ → ℕ → ℕ → ℚ
  wprj : ℕ → ℕ → ℕ → ℕ → ℚ

def Inception._conv1 (m : Inception) : ConvLayer :=
  ⟨m.input_channels, m.filter1, 1, 1, m.w1⟩

def Inception._conv3r (m : Inception) : ConvLayer :=
  ⟨m.input_channels, m.filter3R, 1, 1, m.w3r⟩

def Inception._conv3 (m : Inception) : ConvLayer :=
  ⟨m.filter3R, m.filter3, 3, 1, m.w3⟩

def Inception._conv5r (m : Inception) : ConvLayer :=
  ⟨m.input_channels, m.filter5R, 1, 1, m.w5r⟩

def Inception._conv5 (m : Inception) : ConvLayer :=
  ⟨m.filter5R, m.filter5, 5, 1, m.w5⟩

def Inception._convprj (m : Inception) : ConvLayer :=
  ⟨m.input_channels, m.proj, 1, 1, m.wprj⟩

/-- `Inception.forward`: four parallel branches, channel concatenation in the
order `[1x1, 3x3, 5x5, pooled projection]`, then `F.relu`. -/
def Inception.forward (m : Inception) (inputs : Tensor) : Tensor :=
  let conv1 := m._conv1.forward inputs
  let conv3r := m._conv3r.forward inputs
  let conv3 := m._conv3.forward conv3r
  let conv5r := m._conv5r.forward inputs
  let conv5 := m._conv5.forward conv5r
  let pool := maxpool2d 3 1 1 inputs
  let convprj := m._convprj.forward pool
  relu (concat4 conv1 conv3 conv5 convprj)

/-- `Inception.__init__`: kernel weights drawn from the bank under the
parameter names built from `"inception_" + name`. -/
def mkInception (bank : WeightBank)
    (input_channels output_channels filter1 filter3R filter3 filter5R filter5 proj : ℕ)
    (name : String) : Inception :=
  ⟨input_channels, output_channels, filter1, filter3R, filter3, filter5R, filter5, proj,
    bank.cw ("inception_" ++ name ++ "_1x1_weights"),
    bank.cw ("inception_" ++ name ++ "_3x3_reduce_weights"),
    bank.cw ("inception_" ++ name ++ "_3x3_weights"),
    bank.cw ("inception_" ++ name ++ "_5x5_reduce_weights"),
    bank.cw ("inception_" ++ name ++ "_5x5_weights"),
    bank.cw ("inception_" ++ name ++ "_3x3_proj_weights")⟩

/-- `GoogLeNetDY`: the stem convolutions, the nine inception modules and the
three classification heads, with the class count. Pools and dropouts are
stateless and appear directly in `forward`. -/
structure GoogLeNetDY where
  class_num : ℕ
  _conv : ConvLayer
  _conv_1 : ConvLayer
  _conv_2 : ConvLayer
  _ince3a : Inception
  _ince3b : Inception
  _ince4a : Inception
  _ince4b : Inception
  _ince4c : Inception
  _ince4d : Inception
  _ince4e : Inception
  _ince5a : Inception
  _ince5b : Inception
  _fc_out : Linear
  _conv_o1 : ConvLayer
  _fc_o1 : Linear
  _out1 : Linear
  _conv_o2 : ConvLayer
  _fc_o2 : Linear
  _out2 : Linear

/-- `GoogLeNetDY.__init__(class_num)`: every literal width, kernel size,
stride, `xavier` argument and parameter name of the source constructor, with
the parameter values drawn from the initializer bank. -/
def GoogLeNetDY_init (class_num : ℕ) (bank : WeightBank) : GoogLeNetDY :=
  ⟨class_num,
    mkConvLayer bank 3 64 7 2 "conv1",
    mkConvLayer bank 64 64 1 1 "conv2_1x1",
    mkConvLayer bank 64 192 3 1 "conv2_3x3",
    mkInception bank 192 192 64 96 128 16 32 32 "ince3a",
    mkInception bank 256 256 128 128 192 32 96 64 "ince3b",
    mkInception bank 480 480 192 96 208 16 48 64 "ince4a",
    mkInception bank 512 512 160 112 224 24 64 64 "ince4b",
    mkInception bank 512 512 128 128 256 24 64 64 "ince4c",
    mkInception bank 512 512 112 144 288 32 64 64 "ince4d",
    mkInception bank 528 528 256 160 320 32 128 128 "ince4e",
    mkInception bank 832 832 256 160 320 32 128 128 "ince5a",
    mkInception bank 832 832 384 192 384 48 128 128 "ince5b",
    mkLinear bank 1024 class_num 1024 1 "out" "out_offset",
    mkConvLayer bank 512 128 1 1 "conv_o1",
    mkLinear bank 1152 1024 2048 1 "fc_o1" "fc_o1_offset",
    mkLinear bank 1024 class_num 1024 1 "out1" "out1_offset",
    mkConvLayer bank 528 128 1 1 "conv_o2",
    mkLinear bank 1152 1024 2048 1 "fc_o2" "fc_o2_offset",
    mkLinear bank 1024 class_num 1024 1 "out2" "out2_offset"⟩

/-- `GoogLeNetDY.forward` in the default `NCHW` format: the trunk with the
two stage-4 taps (`ince4a`, `ince4d`), the main head and the two auxiliary
heads; `self._pool` is `MaxPool2D(kernel_size=3, stride=2)`; returns the list
`[out, out1, out2]`. The three dropout masks stand for the framework's
random masks at train time (unused at inference). -/
def GoogLeNetDY.forward (m : GoogLeNetDY) (mode : Mode) (mk0 mk1 mk2 : Mask)
    (inputs : Tensor) : List Tensor :=
  let x := m._conv.forward inputs
  let x := maxpool2d 3 2 0 x
  let x := m._conv_1.forward x
  let x := m._conv_2.forward x
  let x := maxpool2d 3 2 0 x
  let x := m._ince3a.forward x
  let x := m._ince3b.forward x
  let x := maxpool2d 3 2 0 x
  let ince4a := m._ince4a.forward x
  let x := m._ince4b.forward ince4a
  let x := m._ince4c.forward x
  let ince4d := m._ince4d.forward x
  let x := m._ince4e.forward ince4d
  let x := maxpool2d 3 2 0 x
  let x := m._ince5a.forward x
  let ince5b := m._ince5b.forward x
  let x5 := adaptive_avg_pool_1 ince5b
  let x5 := dropout (2/5) mode mk0 x5
  let x5 := flatten x5
  let out := m._fc_out.forward x5
  let x1 := avgpool2d 5 3 ince4a
  let x1 := m._conv_o1.forward x1
  let x1 := flatten x1
  let x1 := m._fc_o1.forward x1
  let x1 := relu x1
  let x1 := dropout (7/10) mode mk1 x1
  let out1 := m._out1.forward x1
  let x2 := avgpool2d 5 3 ince4d
  let x2 := m._conv_o2.forward x2
  let x2 := flatten x2
  let x2 := m._fc_o2.forward x2
  let x2 := dropout (7/10) mode mk2 x2
  let out2 := m._out2.forward x2
  [out, out1, out2]

/-- The trunk up to the end of stage 3 (input of `ince4a`). -/
def GoogLeNetDY.trunk3 (m : GoogLeNetDY) (inputs : Tensor) : Tensor :=
  maxpool2d 3 2 0 (m._ince3b.forward (m._ince3a.forward (maxpool2d 3 2 0
    (m._conv_2.forward (m._conv_1.forward (maxpool2d 3 2 0 (m._conv.forward inputs)))))))

/-- The first stage-4 tap: the output of the first stage-4 inception module
(`ince4a`). -/
def GoogLeNetDY.tap4a (m : GoogLeNetDY) (inputs : Tensor) : Tensor :=
  m._ince4a.forward (m.trunk3 inputs)

/-- The second stage-4 tap: the output of the fourth stage-4 inception module
(`ince4d`). -/
def GoogLeNetDY.tap4d (m : GoogLeNetDY) (inputs : Tensor) : Tensor :=
  m._ince4d.forward (m._ince4c.forward (m._ince4b.forward (m.tap4a inputs)))

/-- The trunk from the second stage-4 tap to the output of `ince5b`. -/
def GoogLeNetDY.trunk5 (m : GoogLeNetDY) (inputs : Tensor) : Tensor :=
  m._ince5b.forward (m._ince5a.forward (maxpool2d 3 2 0 (m._ince4e.forward (m.tap4d inputs))))

/-- Modelled from the spec: the main head — global-average-pool →
dropout(0.4) → flatten → linear → main logits. -/
def main_head (m : GoogLeNetDY) (mode : Mode) (mk0 : Mask) (t : Tensor) : Tensor :=
  m._fc_out.forward (flatten (dropout (2/5) mode mk0 (adaptive_avg_pool_1 t)))

/-- Modelled from the spec: auxiliary head 1 — average-pool(5×5, stride 3) →
conv(1×1) → flatten → linear → activation → dropout(0.7) → linear. -/
def aux1_head (m : GoogLeNetDY) (mode : Mode) (mk1 : Mask) (t : Tensor) : Tensor :=
  m._out1.forward (dropout (7/10) mode mk1 (relu (m._fc_o1.forward (flatten
    (m._conv_o1.forward (avgpool2d 5 3 t))))))

/-- Modelled from the spec: auxiliary head 2 — average-pool(5×5, stride 3) →
conv(1×1) → flatten → linear → dropout(0.7) → linear, with no activation
before the final dropout. -/
def aux2_head (m : GoogLeNetDY) (mode : Mode) (mk2 : Mask) (t : Tensor) : Tensor :=
  m._out2.forward (dropout (7/10) mode mk2 (m._fc_o2.forward (flatten
    (m._conv_o2.forward (avgpool2d 5 3 t)))))

/-- The `pretrained` argument of `GoogLeNet`: Python lets any value through,
the source only handles booleans and strings; an integer stands for the
malformed values. -/
inductive PretrainedArg
  | bool (b : Bool)
  | str (s : String)
  | int (n : ℤ)

/-- The `MODEL_URLS["GoogLeNet"]` constant. -/
def MODEL_URLS_GoogLeNet : String :=
  "https://paddle-imagenet-models-name.bj.bcebos.com/dygraph/GoogLeNet_pretrained.pdparams"

/-- The two checkpoint loaders from `ppcls/utils/save_load.py` (external to
the sources at hand): arbitrary functions from a model and a source to the
loaded model. -/
structure Loaders where
  load_dygraph_pretrain_from_url : GoogLeNetDY → String → Bool → GoogLeNetDY
  load_dygraph_pretrain : GoogLeNetDY → String → GoogLeNetDY

/-- `_load_pretrained`: `False` → no load, `True` → URL load, a string → local
load, anything else → `RuntimeError` (no model escapes). -/
def _load_pretrained (ld : Loaders) (pretrained : PretrainedArg) (model : GoogLeNetDY)
    (model_url : String) (use_ssld : Bool) : Except String GoogLeNetDY :=
  match pretrained with
  | PretrainedArg.bool false => Except.ok model
  | PretrainedArg.bool true =>
      Except.ok (ld.load_dygraph_pretrain_from_url model model_url use_ssld)
  | PretrainedArg.str s => Except.ok (ld.load_dygraph_pretrain model s)
  | PretrainedArg.int _ =>
      Except.error "pretrained type is not available. Please use `string` or `boolean` type."

/-- `GoogLeNet(pretrained, use_ssld, **kwargs)`: construct `GoogLeNetDY`,
then resolve the pretrained source. -/
def GoogLeNet (ld : Loaders) (bank : WeightBank) (pretrained : PretrainedArg)
    (use_ssld : Bool) (class_num : ℕ) : Except String GoogLeNetDY :=
  let model := GoogLeNetDY_init class_num bank
  _load_pretrained ld pretrained model MODEL_URLS_GoogLeNet use_ssld

end GoogLeNetModel

namespace PyInfer

theorem argsort_perm (prob : List ℚ) : List.Perm (argsort prob) (List.range prob.length) :=
  List.perm_insertionSort _ _

theorem argsort_length (prob : List ℚ) : (argsort prob).length = prob.length := by
  simpa using (argsort_perm prob).length_eq

theorem argsort_sorted (prob : List ℚ) : List.Sorted (idxLe prob) (argsort prob) :=
  List.sorted_insertionSort _ _

theorem mem_argsort {prob : List ℚ} {i : ℕ} : i ∈ argsort prob ↔ i < prob.length := by
  rw [(argsort_perm prob).mem_iff, List.mem_range]

theorem probGet_const {prob : List ℚ} {c : ℚ} (hc : ∀ x ∈ prob, x = c) {i : ℕ}
    (hi : i < prob.length) : probGet prob i = c := by
  unfold probGet
  rw [List.getD_eq_getElem?_getD, List.getElem?_eq_getElem hi]
  exact hc _ (List.getElem_mem hi)

theorem argsort_const {prob : List ℚ} {c : ℚ} (hc : ∀ x ∈ prob, x = c) :
    argsort prob = List.range prob.length := by
  have hsorted2 : List.Sorted (idxLe prob) (List.range prob.length) :=
    List.Pairwise.imp_of_mem
      (fun ha hb hab =>
        Or.inr ⟨by
          rw [probGet_const hc (List.mem_range.mp ha), probGet_const hc (List.mem_range.mp hb)],
          Nat.le_of_lt hab⟩)
      (List.pairwise_lt_range _)
  exact List.eq_of_perm_of_sorted (argsort_perm prob) (argsort_sorted prob) hsorted2

theorem tailSlice_pos {α : Type} (l : List α) {k : ℕ} (hk : k ≠ 0) :
    tailSlice l k = l.drop (l.length - k) := by
  simp [tailSlice, hk]

theorem postprocess_length {prob : List ℚ} {k : ℕ} (hk : 1 ≤ k) :
    (postprocess prob k).length = min k prob.length := by
  have hk0 : k ≠ 0 := by omega
  simp [postprocess, tailSlice_pos _ hk0, argsort_length]
  omega

end PyInfer

namespace PyInfer

/-- C2 counterexample: at `topk = 0` over the 2-entry vector `[1, 2]` the code
returns all 2 pairs (the Python slice `[-0:]` keeps the whole list), not
`k = 0` pairs, so the claim fails as stated for `k = 0`. -/
theorem postprocess_topk_zero_cex :
    (postprocess [(1 : ℚ), 2] 0).length = 2 ∧ (postprocess [(1 : ℚ), 2] 0).length ≠ 0 := by
  decide

/-- C2 (amended with `1 ≤ k`): for every score vector with at least `k ≥ 1`
entries, `postprocess` returns exactly `k` pairs, sorted by non-increasing
score, and when the vector has a unique maximum at index `m` the first pair
is `(m, prob[m])`. -/
theorem postprocess_topk_spec (prob : List ℚ) (k : ℕ) (hk : 1 ≤ k)
    (hlen : k ≤ prob.length) :
    (postprocess prob k).length = k ∧
    List.Chain' (fun a b : ℕ × ℚ => b.2 ≤ a.2) (postprocess prob k) ∧
    ∀ m : ℕ, m < prob.length →
      (∀ j : ℕ, j < prob.length → j ≠ m → probGet prob j < probGet prob m) →
      (postprocess prob k).head? = some (m, probGet prob m) := by
  have hk0 : k ≠ 0 := by omega
  have hpost : postprocess prob k =
      (((argsort prob).drop ((argsort prob).length - k)).reverse).map
        (fun i => (i, probGet prob i)) := by
    rw [postprocess, tailSlice_pos _ hk0]
  refine ⟨?_, ?_, ?_⟩
  · rw [postprocess_length hk]; omega
  · rw [hpost]
    have hd : List.Pairwise (idxLe prob) ((argsort prob).drop ((argsort prob).length - k)) :=
      List.Pairwise.sublist (List.drop_sublist _ _) (argsort_sorted prob)
    have hrev : List.Pairwise (fun i j : ℕ => probGet prob j ≤ probGet prob i)
        (((argsort prob).drop ((argsort prob).length - k)).reverse) := by
      refine (List.pairwise_reverse.mpr hd).imp ?_
      intro i j hij
      rcases hij with h | ⟨e, _⟩
      · exact le_of_lt h
      · exact le_of_eq e
    exact (List.pairwise_map.mpr hrev).chain'
  · intro m hm huniq
    have hlenA : (argsort prob).length = prob.length := argsort_length prob
    have hDlen : ((argsort prob).drop ((argsort prob).length - k)).length = k := by
      rw [List.length_drop]; omega
    have hDne : (argsort prob).drop ((argsort prob).length - k) ≠ [] := by
      intro h
      rw [h] at hDlen
      simp at hDlen
      omega
    set D := (argsort prob).drop ((argsort prob).length - k) with hDdef
    set L := D.getLast hDne with hLdef
    have hLmem : L ∈ D := List.getLast_mem hDne
    have hDsub : D.Sublist (argsort prob) := List.drop_sublist _ _
    have hLA : L ∈ argsort prob := hDsub.mem hLmem
    have hLn : L < prob.length := mem_argsort.mp hLA
    have hsplit : (argsort prob).take ((argsort prob).length - k) ++ D = argsort prob :=
      List.take_append_drop _ _
    have hpairA : List.Pairwise (idxLe prob) (argsort prob) := argsort_sorted prob
    have hpairTD := List.pairwise_append.mp (hsplit ▸ hpairA)
    have hpairD : List.Pairwise (idxLe prob) D :=
      List.Pairwise.sublist hDsub hpairA
    have hinD : ∀ x ∈ D, x = L ∨ idxLe prob x L := by
      intro x hx
      have hsplitD : D.dropLast ++ [L] = D := List.dropLast_append_getLast hDne
      have hpairD2 : List.Pairwise (idxLe prob) (D.dropLast ++ [L]) := hsplitD.symm ▸ hpairD
      rcases List.mem_append.mp (hsplitD.symm ▸ hx) with h | h
      · exact Or.inr ((List.pairwise_append.mp hpairD2).2.2 x h L
          (List.mem_singleton.mpr rfl))
      · exact Or.inl (List.mem_singleton.mp h)
    have hmA : m ∈ argsort prob := mem_argsort.mpr hm
    have hmL : m = L ∨ idxLe prob m L := by
      rcases List.mem_append.mp (hsplit ▸ hmA) with h | h
      · exact Or.inr (hpairTD.2.2 m h L hLmem)
      · exact hinD m h
    have hLm : L = m := by
      by_contra hne
      have hlt : probGet prob L < probGet prob m := huniq L hLn hne
      rcases hmL with h | h
      · exact hne h.symm
      · rcases h with h | ⟨e, _⟩
        · exact absurd hlt (lt_asymm h)
        · rw [e] at hlt
          exact absurd hlt (lt_irrefl _)
    rw [hpost]
    rw [List.head?_map, List.head?_reverse, List.getLast?_eq_getLast_of_ne_nil hDne]
    rw [← hLdef, hLm]
    rfl

/-- C2 witness: the spec theorem applied to `[1, 3, 2]` with `k = 2` and
unique maximum at index 1. -/
theorem postprocess_topk_spec_witness :
    1 ≤ 2 ∧ 2 ≤ [(1 : ℚ), 3, 2].length ∧
      (postprocess [(1 : ℚ), 3, 2] 2).head? = some (1, probGet [(1 : ℚ), 3, 2] 1) :=
  ⟨by decide, by decide,
    (postprocess_topk_spec [(1 : ℚ), 3, 2] 2 (by decide) (by decide)).2.2 1 (by decide)
      (by decide)⟩

/-- C9: when the flattened vector has fewer than `topk` entries, `postprocess`
returns all of them (the requested count is silently truncated) and never
fails (it is a total function). -/
theorem postprocess_truncates_topk (prob : List ℚ) (k : ℕ) (h : prob.length < k) :
    (postprocess prob k).length = prob.length := by
  have hk : 1 ≤ k := by omega
  rw [postprocess_length hk]
  omega

/-- C9 witness: `k = 5` over the 2-entry vector `[1, 2]` yields 2 pairs. -/
theorem postprocess_truncates_topk_witness :
    [(1 : ℚ), 2].length < 5 ∧ (postprocess [(1 : ℚ), 2] 5).length = [(1 : ℚ), 2].length :=
  ⟨by decide, postprocess_truncates_topk [(1 : ℚ), 2] 5 (by decide)⟩

/-- C1 counterexample: over the all-equal 6-entry vector with `k = 3` the
returned class indices are `[5, 4, 3]` — the *highest* indices in
*descending* order, not ascending order with lower index first. -/
theorem postprocess_uniform_cex :
    (postprocess (List.replicate 6 (1 : ℚ)) 3).map Prod.fst = [5, 4, 3] ∧
      ¬ List.Chain' (fun a b : ℕ => a ≤ b)
        ((postprocess (List.replicate 6 (1 : ℚ)) 3).map Prod.fst) := by
  have h : (postprocess (List.replicate 6 (1 : ℚ)) 3).map Prod.fst = [5, 4, 3] := by decide
  refine ⟨h, ?_⟩
  rw [h, List.chain'_cons]
  rintro ⟨h54, -⟩
  omega

/-- C1 (amended): over an all-equal score vector with `1 ≤ k ≤ length`,
`postprocess` returns `k` entries whose scores are all equal and whose class
indices are the `k` *largest* indices in *descending* original-index order
(ties between equal scores rank the higher index first), because the code
takes the tail of the ascending stable argsort and reverses it. -/
theorem postprocess_uniform_topk (prob : List ℚ) (c : ℚ) (k : ℕ)
    (hc : ∀ x ∈ prob, x = c) (hk : 1 ≤ k) (hkn : k ≤ prob.length) :
    (postprocess prob k).length = k ∧
    (postprocess prob k).map Prod.fst =
      ((List.range prob.length).drop (prob.length - k)).reverse ∧
    List.Chain' (fun a b : ℕ => b < a) ((postprocess prob k).map Prod.fst) ∧
    ∀ p ∈ postprocess prob k, p.2 = c := by
  have hk0 : k ≠ 0 := by omega
  have hfst : (postprocess prob k).map Prod.fst =
      ((List.range prob.length).drop (prob.length - k)).reverse := by
    rw [postprocess, tailSlice_pos _ hk0, argsort_const hc, List.length_range]
    simp [List.map_map, Function.comp_def]
  refine ⟨?_, hfst, ?_, ?_⟩
  · rw [postprocess_length hk]; omega
  · rw [hfst]
    have hd : List.Pairwise (fun a b : ℕ => a < b)
        ((List.range prob.length).drop (prob.length - k)) :=
      List.Pairwise.sublist (List.drop_sublist _ _) (List.pairwise_lt_range _)
    exact (List.pairwise_reverse.mpr hd).chain'
  · intro p hp
    rw [postprocess, tailSlice_pos _ hk0, argsort_const hc, List.length_range] at hp
    rcases List.mem_map.mp hp with ⟨i, hi, rfl⟩
    have hir : i ∈ List.range prob.length :=
      (List.drop_sublist _ _).mem (List.mem_reverse.mp hi)
    exact probGet_const hc (List.mem_range.mp hir)

/-- C1 witness: the amended statement applied to the all-equal 6-entry
vector with `k = 3`. -/
theorem postprocess_uniform_topk_witness :
    (∀ x ∈ List.replicate 6 (1 : ℚ), x = 1) ∧ 1 ≤ 3 ∧
      3 ≤ (List.replicate 6 (1 : ℚ)).length ∧
      (postprocess (List.replicate 6 (1 : ℚ)) 3).map Prod.fst =
        ((List.range (List.replicate 6 (1 : ℚ)).length).drop
          ((List.replicate 6 (1 : ℚ)).length - 3)).reverse :=
  ⟨by decide, by decide, by decide,
    (postprocess_uniform_topk (List.replicate 6 (1 : ℚ)) 1 3 (by decide) (by decide)
      (by decide)).2.1⟩

end PyInfer

namespace PyInfer

/-- C7: `get_image_list` accepts exactly the files whose final dot-separated
suffix lies in the literal set `{jpg, png, jpeg, JPEG, JPG, bmp}`: a single
matching file yields the singleton, a directory yields its matching entries,
and `None`, a non-existing path, or an empty match set fail with the
not-found error. -/
theorem get_image_list_spec :
    (∀ fs : FS, get_image_list fs none = Except.error "not found any img file in None") ∧
    (∀ (fs : FS) (p : String), fs.pathExists p = false →
      get_image_list fs (some p) = Except.error ("not found any img file in " ++ p)) ∧
    (∀ (fs : FS) (p : String), fs.pathExists p = true → fs.isfile p = true →
      fileExt p ∈ img_end → get_image_list fs (some p) = Except.ok [p]) ∧
    (∀ (fs : FS) (p : String), fs.pathExists p = true →
      ¬(fs.isfile p = true ∧ fileExt p ∈ img_end) → fs.isdir p = true →
      ((fs.listdir p).filter isImgName).map (path_join p) ≠ [] →
      get_image_list fs (some p) =
        Except.ok (((fs.listdir p).filter isImgName).map (path_join p))) ∧
    (∀ (fs : FS) (p : String), fs.pathExists p = true →
      ¬(fs.isfile p = true ∧ fileExt p ∈ img_end) → fs.isdir p = true →
      ((fs.listdir p).filter isImgName).map (path_join p) = [] →
      get_image_list fs (some p) = Except.error ("not found any img file in " ++ p)) := by
  refine ⟨fun fs => rfl, ?_, ?_, ?_, ?_⟩
  · intro fs p h
    simp [get_image_list, h]
  · intro fs p h1 h2 h3
    simp [get_image_list, h1, h2, h3]
  · intro fs p h1 h2 h3 h4
    simp [get_image_list, h1, h2, h3, h4]
  · intro fs p h1 h2 h3 h4
    simp [get_image_list, h1, h2, h3, h4]

/-- C7 witness: the directory case applied to the sample file system. -/
theorem get_image_list_spec_witness :
    fsEx.pathExists "imgs" = true ∧ fsEx.isdir "imgs" = true ∧
      get_image_list fsEx (some "imgs") = Except.ok ["imgs/a.jpg"] :=
  ⟨by decide, by decide, by
    have h := get_image_list_spec.2.2.2.1 fsEx "imgs" (by decide) (by decide) (by decide)
      (by decide)
    rw [h]
    decide⟩

/-- C10: a path naming an existing regular file whose extension is outside
the enumerated set is rejected with the not-found error — existence alone is
not sufficient for acceptance. -/
theorem get_image_list_bad_ext (fs : FS) (p : String) (hex : fs.pathExists p = true)
    (hf : fs.isfile p = true) (hd : fs.isdir p = false) (hext : fileExt p ∉ img_end) :
    get_image_list fs (some p) = Except.error ("not found any img file in " ++ p) := by
  simp [get_image_list, hex, hf, hd, hext]

/-- C10 witness: the existing file `photo.PNG` (suffix `PNG`, not in the
list) is rejected. -/
theorem get_image_list_bad_ext_witness :
    fsBad.pathExists "photo.PNG" = true ∧ fsBad.isfile "photo.PNG" = true ∧
      get_image_list fsBad (some "photo.PNG") =
        Except.error ("not found any img file in " ++ "photo.PNG") :=
  ⟨by decide, by decide,
    get_image_list_bad_ext fsBad "photo.PNG" (by decide) (by decide) (by decide) (by decide)⟩

end PyInfer

namespace GoogLeNetModel

/-- C3: a pretrained source that is neither a boolean nor a string (here an
integer) makes `GoogLeNet` fail with the construction-time `RuntimeError`
(the spec taxonomy's ConfigurationError) and no model is returned, while
`False` performs no load, `True` performs the URL load and a string performs
the local-path load. -/
theorem googlenet_pretrained_spec (ld : Loaders) (bank : WeightBank) (use_ssld : Bool)
    (class_num : ℕ) :
    (∀ n : ℤ, GoogLeNet ld bank (PretrainedArg.int n) use_ssld class_num =
      Except.error
        "pretrained type is not available. Please use `string` or `boolean` type.") ∧
    GoogLeNet ld bank (PretrainedArg.bool false) use_ssld class_num =
      Except.ok (GoogLeNetDY_init class_num bank) ∧
    GoogLeNet ld bank (PretrainedArg.bool true) use_ssld class_num =
      Except.ok (ld.load_dygraph_pretrain_from_url (GoogLeNetDY_init class_num bank)
        MODEL_URLS_GoogLeNet use_ssld) ∧
    ∀ s : String, GoogLeNet ld bank (PretrainedArg.str s) use_ssld class_num =
      Except.ok (ld.load_dygraph_pretrain (GoogLeNetDY_init class_num bank) s) :=
  ⟨fun _ => rfl, rfl, rfl, fun _ => rfl⟩

/-- C6: with an absent pretrained source (`False`), nothing is loaded — the
model `GoogLeNet` returns is exactly the freshly constructed
`GoogLeNetDY_init class_num bank` (all parameters initializer-determined),
whatever the loader functions would do. -/
theorem googlenet_no_load_keeps_init (ld : Loaders) (bank : WeightBank) (use_ssld : Bool)
    (class_num : ℕ) :
    GoogLeNet ld bank (PretrainedArg.bool false) use_ssld class_num =
      Except.ok (GoogLeNetDY_init class_num bank) := rfl

/-- A zero bank for evaluating the architecture constants. -/
def bank0 : WeightBank := ⟨fun _ _ _ _ _ => 0, fun _ _ _ => 0, fun _ _ => 0⟩

/-- C8 counterexample: `_fc_o1` has 1152 input features, but its `xavier`
call-site passes `channels = 2048`; the squared bound is `3/2048`, not
`3/(1^2 * 1152)` as the fan-in formula of the claim requires. -/
theorem xavier_fan_in_cex :
    (GoogLeNetDY_init 1000 bank0)._fc_o1.in_features = 1152 ∧
    (GoogLeNetDY_init 1000 bank0)._fc_o1.weight_attr = ⟨2048, 1⟩ ∧
    xavier_stdv_sq (GoogLeNetDY_init 1000 bank0)._fc_o1.weight_attr.channels
        (GoogLeNetDY_init 1000 bank0)._fc_o1.weight_attr.filter_size ≠
      3 / ((1 : ℚ) ^ 2 * 1152) := by
  refine ⟨rfl, rfl, ?_⟩
  show xavier_stdv_sq 2048 1 ≠ 3 / ((1 : ℚ) ^ 2 * 1152)
  rw [xavier_stdv_sq]
  norm_num

/-- C8 (amended): the xavier squared bound is `3 / (filter_size^2 * channels)`
with `channels` the *call-site argument*: for `_fc_out` that argument (1024)
equals its fan-in, but `_fc_o1` and `_fc_o2` have fan-in 1152 while being
initialized with `channels = 2048`, so their bound is `3/2048`. -/
theorem xavier_bound_spec (class_num : ℕ) (bank : WeightBank) :
    ((GoogLeNetDY_init class_num bank)._fc_out.in_features = 1024 ∧
      (GoogLeNetDY_init class_num bank)._fc_out.weight_attr = ⟨1024, 1⟩ ∧
      xavier_stdv_sq 1024 1 = 3 / 1024) ∧
    ((GoogLeNetDY_init class_num bank)._fc_o1.in_features = 1152 ∧
      (GoogLeNetDY_init class_num bank)._fc_o1.weight_attr = ⟨2048, 1⟩ ∧
      xavier_stdv_sq 2048 1 = 3 / 2048) ∧
    ((GoogLeNetDY_init class_num bank)._fc_o2.in_features = 1152 ∧
      (GoogLeNetDY_init class_num bank)._fc_o2.weight_attr = ⟨2048, 1⟩ ∧
      xavier_stdv_sq 2048 1 = 3 / 2048) := by
  refine ⟨⟨rfl, rfl, ?_⟩, ⟨rfl, rfl, ?_⟩, ⟨rfl, rfl, ?_⟩⟩ <;>
    rw [xavier_stdv_sq] <;> norm_num

end GoogLeNetModel

namespace GoogLeNetModel

/-- C4: `Inception.forward` is the rectified-linear activation of the channel
concatenation of the four branches in the fixed order {1×1, 3×3, 5×5,
pooled projection}; each branch output keeps the input's H and W (the
`(k-1)//2` padding with stride 1), and the output channel count is
`filter1 + filter3 + filter5 + proj`. -/
theorem inception_forward_spec (m : Inception) (x : Tensor) (hh : 1 ≤ x.h) (hw : 1 ≤ x.w) :
    m.forward x = relu (concat4 (m._conv1.forward x)
      (m._conv3.forward (m._conv3r.forward x))
      (m._conv5.forward (m._conv5r.forward x))
      (m._convprj.forward (maxpool2d 3 1 1 x))) ∧
    ((m._conv1.forward x).h = x.h ∧ (m._conv1.forward x).w = x.w) ∧
    ((m._conv3.forward (m._conv3r.forward x)).h = x.h ∧
      (m._conv3.forward (m._conv3r.forward x)).w = x.w) ∧
    ((m._conv5.forward (m._conv5r.forward x)).h = x.h ∧
      (m._conv5.forward (m._conv5r.forward x)).w = x.w) ∧
    ((m._convprj.forward (maxpool2d 3 1 1 x)).h = x.h ∧
      (m._convprj.forward (maxpool2d 3 1 1 x)).w = x.w) ∧
    (m.forward x).c = m.filter1 + m.filter3 + m.filter5 + m.proj ∧
    (m.forward x).h = x.h ∧ (m.forward x).w = x.w := by
  refine ⟨rfl, ⟨?_, ?_⟩, ⟨?_, ?_⟩, ⟨?_, ?_⟩, ⟨?_, ?_⟩, ?_, ?_, ?_⟩
  · show (x.h + 2 * ((1 - 1) / 2) - 1) / 1 + 1 = x.h
    omega
  · show (x.w + 2 * ((1 - 1) / 2) - 1) / 1 + 1 = x.w
    omega
  · show ((x.h + 2 * ((1 - 1) / 2) - 1) / 1 + 1 + 2 * ((3 - 1) / 2) - 3) / 1 + 1 = x.h
    omega
  · show ((x.w + 2 * ((1 - 1) / 2) - 1) / 1 + 1 + 2 * ((3 - 1) / 2) - 3) / 1 + 1 = x.w
    omega
  · show ((x.h + 2 * ((1 - 1) / 2) - 1) / 1 + 1 + 2 * ((5 - 1) / 2) - 5) / 1 + 1 = x.h
    omega
  · show ((x.w + 2 * ((1 - 1) / 2) - 1) / 1 + 1 + 2 * ((5 - 1) / 2) - 5) / 1 + 1 = x.w
    omega
  · show ((x.h + 2 * 1 - 3) / 1 + 1 + 2 * ((1 - 1) / 2) - 1) / 1 + 1 = x.h
    omega
  · show ((x.w + 2 * 1 - 3) / 1 + 1 + 2 * ((1 - 1) / 2) - 1) / 1 + 1 = x.w
    omega
  · show m.filter1 + (m.filter3 + (m.filter5 + m.proj)) =
      m.filter1 + m.filter3 + m.filter5 + m.proj
    omega
  · show (x.h + 2 * ((1 - 1) / 2) - 1) / 1 + 1 = x.h
    omega
  · show (x.w + 2 * ((1 - 1) / 2) - 1) / 1 + 1 = x.w
    omega

/-- A tiny concrete tensor for the C4 witness. -/
def tEx : Tensor := ⟨1, 1, 2, 2, fun _ _ _ _ => 1⟩

/-- A tiny concrete inception module for the C4 witness. -/
def incEx : Inception :=
  ⟨1, 4, 1, 1, 1, 1, 1, 1, fun _ _ _ _ => 1, fun _ _ _ _ => 1, fun _ _ _ _ => 1,
    fun _ _ _ _ => 1, fun _ _ _ _ => 1, fun _ _ _ _ => 1⟩

/-- C4 witness: the shape statement at a concrete module and input. -/
theorem inception_forward_spec_witness :
    1 ≤ tEx.h ∧ 1 ≤ tEx.w ∧
      ((incEx.forward tEx).c = incEx.filter1 + incEx.filter3 + incEx.filter5 + incEx.proj ∧
        (incEx.forward tEx).h = tEx.h ∧ (incEx.forward tEx).w = tEx.w) :=
  ⟨by decide, by decide,
    (inception_forward_spec incEx tEx (by decide) (by decide)).2.2.2.2.2⟩

/-- C5: the forward pass always returns the 3-list
`[main_logits, aux1_logits, aux2_logits]` in either mode; auxiliary head 1 is
fed from the first stage-4 tap (`ince4a`) and applies an activation between
its first linear layer and its dropout, auxiliary head 2 is fed from the
fourth stage-4 tap (`ince4d`) and applies no activation before its final
dropout (flatten → linear → dropout → linear). -/
theorem googlenet_forward_heads (m : GoogLeNetDY) (mode : Mode) (mk0 mk1 mk2 : Mask)
    (x : Tensor) :
    m.forward mode mk0 mk1 mk2 x =
      [main_head m mode mk0 (m.trunk5 x), aux1_head m mode mk1 (m.tap4a x),
        aux2_head m mode mk2 (m.tap4d x)] ∧
    (m.forward Mode.train mk0 mk1 mk2 x).length = 3 ∧
    (m.forward Mode.infer mk0 mk1 mk2 x).length = 3 :=
  ⟨rfl, rfl, rfl⟩

end GoogLeNetModel
